import Mathlib

/-!
Verification of the tool registry in `mcp_server.py` (MCP_Langgraph_Agent).

Each tool is a synchronous Python function over one external collaborator
(HTTP API, RSS feed, geocoder, LLM).  The embedding makes every upstream
outcome explicit as data: a tool becomes a pure function from its upstream
outcome(s) to `Except PyErr String`, where `Except.error` models a Python
exception escaping the tool boundary and `Except.ok` models a returned
string.  Python floats are modelled as exact rationals; the digit-level
rendering of third-party exception messages that no property depends on is
modelled by a fixed total function `strExc`.
-/

set_option maxRecDepth 100000

namespace MCP

/-- Python exception values that can arise at or cross a tool boundary in
`mcp_server.py`.  `retryError` is tenacity's `RetryError`, wrapping the last
exception of an exhausted retry loop. -/
inductive PyErr where
  | valueError (msg : String)
  | typeError (msg : String)
  | geocoderTimedOut
  | geocoderServiceError
  | retryError (last : PyErr)
  | httpStatusError (code : Nat)
  | timeoutException
  | otherExc (msg : String)
deriving Repr, DecidableEq

/-- Python `str(e)` for a caught exception, as interpolated into the error strings of
`get_news_headlines` and `get_kbo_rank`.  For `ValueError`/`TypeError`/generic
exceptions Python renders exactly the message; the renderings of the
third-party exception classes are fixed opaque texts (no claim depends on
them). -/
def strExc : PyErr → String
  | .valueError m => m
  | .typeError m => m
  | .geocoderTimedOut => "GeocoderTimedOut"
  | .geocoderServiceError => "GeocoderServiceError"
  | .retryError _ => "RetryError"
  | .httpStatusError c => "HTTPStatusError " ++ toString c
  | .timeoutException => "TimeoutException"
  | .otherExc m => m

/-- A single-quote character (written via its code point). -/
def squote : String := String.singleton (Char.ofNat 39)

/-- The `ValueError` message raised by `get_coordinates` when the geocoder
finds no location: `'{city_name}'의 좌표를 찾을 수 없습니다. 도시 이름을 확인해주세요.` -/
def coordsNotFoundMsg (city : String) : String :=
  squote ++ city ++ squote ++ "의 좌표를 찾을 수 없습니다. 도시 이름을 확인해주세요."

/-- Outcome of one call to `geolocator.geocode(city_name)` inside
`get_coordinates`: a location (latitude/longitude floats, modelled as
rationals), no location (`None`), or one of the two geopy exceptions. -/
inductive GeoAttempt where
  | found (lat lon : Rat)
  | notFound
  | timedOut
  | serviceError
deriving Repr, DecidableEq

/-- One attempt of the body of `get_coordinates`: a found location is
returned; `None` raises `ValueError` (not caught by the `except` clause, which
only names the two geopy errors); the geopy errors are logged and re-raised
for the retry decorator. -/
def attemptOnce (city : String) (o : GeoAttempt) : Except PyErr (Rat × Rat) :=
  match o with
  | .found la lo => .ok (la, lo)
  | .notFound => .error (.valueError (coordsNotFoundMsg city))
  | .timedOut => .error .geocoderTimedOut
  | .serviceError => .error .geocoderServiceError

/-- The tenacity `@retry(stop=stop_after_attempt(3), wait=wait_exponential(...))`
loop around the body of `get_coordinates`.  Tenacity's default predicate
retries on any `Exception`; when the stop condition is reached with a failing
last attempt it raises `RetryError` wrapping that exception.  The exponential
wait only delays and is not observable in the result.  `i` is the index of the
next attempt, `fuel` the number of attempts still allowed; the second
component counts the calls made to the geocoding dependency. -/
def retryGo (city : String) (geo : Nat → GeoAttempt) :
    Nat → Nat → Except PyErr (Rat × Rat) × Nat
  | i, 0 => (.error (.retryError (.otherExc "no attempt")), i)
  | i, Nat.succ fuel =>
    match attemptOnce city (geo i) with
    | .ok c => (.ok c, i + 1)
    | .error e =>
      match fuel with
      | 0 => (.error (.retryError e), i + 1)
      | Nat.succ _ => retryGo city geo (i + 1) fuel

/-- The helper `get_coordinates(city_name)`: the retried coordinate lookup.  `geo i` is
the outcome the geocoder would give on the i-th attempt of this call. -/
def get_coordinates (city : String) (geo : Nat → GeoAttempt) :
    Except PyErr (Rat × Rat) :=
  (retryGo city geo 0 3).1

/-- How many times `get_coordinates(city_name)` calls the geocoding
dependency. -/
def geocodeCalls (city : String) (geo : Nat → GeoAttempt) : Nat :=
  (retryGo city geo 0 3).2

/-- Outcome of one outbound call (HTTP request plus status check and parsing,
or an LLM invocation): a parsed value, or an exception. -/
inductive Fetch (α : Type) where
  | ok (a : α)
  | exn (e : PyErr)
deriving Repr, DecidableEq

/-- Whether an outcome is a successful one. -/
def Fetch.isOk {α : Type} : Fetch α → Bool
  | .ok _ => true
  | .exn _ => false

/-- The `current_weather` object of the open-meteo response.  Field values are
kept as their Python `str()` renderings (`weathercode` as the integer itself,
since its raw value — not a formatted string — is placed in the result
dict). -/
structure CurrentWeather where
  temperature : Option String
  windspeed : Option String
  weathercode : Option Int
  time : Option String
deriving Repr, DecidableEq

/-- The parsed forecast JSON: `result.get('current_weather', {})` defaults to
an empty dict, i.e. all fields missing. -/
structure ForecastJson where
  current_weather : Option CurrentWeather
deriving Repr, DecidableEq

/-- The empty `current_weather` dict. -/
def CurrentWeather.empty : CurrentWeather := ⟨none, none, none, none⟩

/-- Minimal JSON string escaping (quote and backslash) as performed by
`json.dumps` with `ensure_ascii=False`. -/
def jsonEscape (s : String) : String :=
  String.mk (s.data.flatMap fun c =>
    if c = Char.ofNat 92 then [Char.ofNat 92, Char.ofNat 92]
    else if c = Char.ofNat 34 then [Char.ofNat 92, Char.ofNat 34]
    else [c])

/-- A JSON string literal. -/
def jstr (s : String) : String := "\"" ++ jsonEscape s ++ "\""

/-- Value of `current.get(key, 'N/A')` for the string-rendered fields. -/
def optNA (o : Option String) : String := o.getD "N/A"

/-- Rendering of `json.dumps(weather_info, ensure_ascii=False, indent=2)` for the fixed
five-key dict built by `get_weather`. -/
def weatherDump (city : String) (cw : CurrentWeather) : String :=
  "\x7b\n  " ++ jstr "도시" ++ ": " ++ jstr city ++ ",\n  "
  ++ jstr "온도" ++ ": " ++ jstr (optNA cw.temperature ++ "°C") ++ ",\n  "
  ++ jstr "풍속" ++ ": " ++ jstr (optNA cw.windspeed ++ " km/h") ++ ",\n  "
  ++ jstr "날씨코드" ++ ": "
    ++ (match cw.weathercode with
        | none => jstr "N/A"
        | some n => toString n) ++ ",\n  "
  ++ jstr "시간" ++ ": "
    ++ (match cw.time with
        | none => jstr "N/A"
        | some t => jstr t) ++ "\n\x7d"

/-- The upstream collaborators of one `get_weather` invocation: the geocoder
outcomes per retry attempt, and the outcome of the forecast GET (including
`raise_for_status` and `response.json()`). -/
structure WeatherWorld where
  geo : Nat → GeoAttempt
  forecast : Fetch ForecastJson

/-- The tool `get_weather(city_name)`: no `try`/`except` anywhere in its body — the
coordinate lookup's exception propagates, and so do the forecast request's
(`httpx.get`, `raise_for_status`, `response.json()`).  On success it returns
the dumped `weather_info` dict. -/
def get_weather (city : String) (w : WeatherWorld) : Except PyErr String :=
  match get_coordinates city w.geo with
  | .error e => .error e
  | .ok _ =>
    match w.forecast with
    | .exn e => .error e
    | .ok js => .ok (weatherDump city (js.current_weather.getD CurrentWeather.empty))

/-- A parsed HTML node: a `NavigableString` (kept as a character list) or a
`Tag` with a name and child nodes.  A document is a `List Node` (the top-level
forest produced by the parser). -/
inductive Node where
  | text : List Char → Node
  | elem : String → List Node → Node

/-- The tags removed by `scrape_page_text`:
`soup(['script', 'style', 'nav', 'footer', 'header'])` followed by
`tag.decompose()`. -/
def bannedTag (t : String) : Bool :=
  t = "script" || t = "style" || t = "nav" || t = "footer" || t = "header"

mutual
/-- Effect of decomposing every banned tag on one node: a banned element
disappears together with its whole subtree; any other node is kept with its
children pruned. -/
def pruneN : Node → List Node
  | .text s => [.text s]
  | .elem t cs => if bannedTag t then [] else [.elem t (pruneF cs)]
/-- Extension of `pruneN` over a forest. -/
def pruneF : List Node → List Node
  | [] => []
  | n :: ns => pruneN n ++ pruneF ns
end

mutual
/-- No element of this node's subtree carries a banned tag. -/
def bannedFreeN : Node → Bool
  | .text _ => true
  | .elem t cs => !bannedTag t && bannedFreeF cs
/-- Extension of `bannedFreeN` over a forest. -/
def bannedFreeF : List Node → Bool
  | [] => true
  | n :: ns => bannedFreeN n && bannedFreeF ns
end

mutual
/-- Model of `soup.body`: the first element named `body`, in document order. -/
def findBodyN : Node → Option Node
  | .text _ => none
  | .elem t cs => if t = "body" then some (.elem t cs) else findBodyF cs
/-- Extension of `findBodyN` over a forest. -/
def findBodyF : List Node → Option Node
  | [] => none
  | n :: ns =>
    match findBodyN n with
    | some b => some b
    | none => findBodyF ns
end

mutual
/-- All `NavigableString` fragments of a node's subtree, in document order. -/
def textFragsN : Node → List (List Char)
  | .text s => [s]
  | .elem _ cs => textFragsF cs
/-- Extension of `textFragsN` over a forest. -/
def textFragsF : List Node → List (List Char)
  | [] => []
  | n :: ns => textFragsN n ++ textFragsF ns
end

/-- Python `str.isspace` characters relevant to `str.strip()`/`str.split()`. -/
def isPySpace (c : Char) : Bool :=
  c = ' ' || c = Char.ofNat 9 || c = Char.ofNat 10 || c = Char.ofNat 13
    || c = Char.ofNat 11 || c = Char.ofNat 12

/-- Python `str.strip()`. -/
def stripWS (s : List Char) : List Char :=
  ((s.dropWhile isPySpace).reverse.dropWhile isPySpace).reverse

/-- Helper of `pyWords`: `cur` is the current word, reversed. -/
def pyWordsAux : List Char → List Char → List (List Char)
  | [], cur => if cur.isEmpty then [] else [cur.reverse]
  | c :: cs, cur =>
    if isPySpace c then
      if cur.isEmpty then pyWordsAux cs [] else cur.reverse :: pyWordsAux cs []
    else pyWordsAux cs (c :: cur)

/-- Python `str.split()` with no argument: maximal runs of non-whitespace. -/
def pyWords (s : List Char) : List (List Char) := pyWordsAux s []

/-- Model of `separator.join(...)` with a one-space separator, on character lists. -/
def joinWords : List (List Char) → List Char
  | [] => []
  | [w] => w
  | w :: v :: ws => w ++ ' ' :: joinWords (v :: ws)

/-- Model of `body.get_text(separator=" ", strip=True)`: each text fragment is
stripped, fragments that are empty after stripping are skipped, and the rest
are joined with the separator. -/
def getTextStrip (n : Node) : List Char :=
  joinWords (((textFragsN n).map stripWS).filter (fun w => !w.isEmpty))

/-- Upstream outcome of the `httpx.get` in `scrape_page_text`: a parsed
document on success, or one of the three caught exception classes. -/
inductive ScrapeOutcome where
  | ok (doc : List Node)
  | statusError (code : Nat)
  | timeout
  | exn (msg : String)

/-- The tool `scrape_page_text(url)`: fetch, prune the banned tags, and if
`soup.body` finds a body element return its whitespace-collapsed text
truncated to 5000 characters; only when no body element exists is the
not-found string returned (a bs4 `Tag` is unconditionally truthy — its
`__bool__` returns `True` even for a childless tag — so `if soup.body:` is a
presence test); every caught exception becomes an error string. -/
def scrape_page_text (o : ScrapeOutcome) : String :=
  match o with
  | .ok doc =>
    match findBodyF (pruneF doc) with
    | some body =>
      String.mk ((joinWords (pyWords (getTextStrip body))).take 5000)
    | none => "본문 내용을 찾을 수 없습니다."
  | .statusError code => "HTTP 에러 발생: " ++ toString code
  | .timeout => "요청 시간 초과: 웹페이지 응답이 너무 느립니다."
  | .exn msg => "스크래핑 실패: " ++ msg

/-- Only a single ASCII space may appear as whitespace, and never two spaces
in a row: the shape `" ".join(text.split())` guarantees. -/
def noDoubleSpace : List Char → Bool
  | a :: b :: rest => !(a = ' ' && b = ' ') && noDoubleSpace (b :: rest)
  | _ => true

/-- Whitespace is collapsed: every whitespace character is a plain space and
no two spaces are adjacent. -/
def isCollapsed (s : List Char) : Bool :=
  s.all (fun c => !isPySpace c || c = ' ') && noDoubleSpace s

/-- Model of `"\n".join(...)`, on strings. -/
def joinLines : List String → String
  | [] => ""
  | [s] => s
  | s :: t :: rest => s ++ "\n" ++ joinLines (t :: rest)

/-- One RSS entry as seen through `getattr(entry, ..., default)`: `none`
models a missing attribute or a `None` value, `some` a present string. -/
structure FeedEntry where
  title : Option String
  link : Option String
deriving Repr, DecidableEq

/-- Python slicing `xs[:n]` for an arbitrary integer `n` (negative `n` keeps
`len(xs) + n` elements, clamped at zero). -/
def pyTake {α : Type} (n : Int) (xs : List α) : List α :=
  if 0 ≤ n then xs.take n.toNat
  else xs.take (xs.length - (-n).toNat)

/-- The effective title of an entry after the two placeholder substitutions
(`getattr` default and the `if not title` check). -/
def effTitle (e : FeedEntry) : String :=
  match e.title with
  | none => "제목 없음"
  | some t => if t = "" then "제목 없음" else t

/-- The effective link of an entry after the placeholder substitutions. -/
def effLink (e : FeedEntry) : String :=
  match e.link with
  | none => "#"
  | some l => if l = "" then "#" else l

/-- The `for i, entry in enumerate(feed.entries[:max_items], 1)` loop body of
`get_news_headlines`, producing the numbered markdown lines. -/
def newsItemsFrom (i : Nat) : List FeedEntry → List String
  | [] => []
  | e :: es =>
    let title := match e.title with | none => "제목 없음" | some t => t
    let link := match e.link with | none => "#" | some l => l
    let title := if title = "" then "제목 없음" else title
    let link := if link = "" then "#" else link
    (toString i ++ ". [" ++ title ++ "](" ++ link ++ ")") :: newsItemsFrom (i + 1) es

/-- The tool `get_news_headlines(max_items)`: parse the fixed feed URL; an empty entry
list yields the fixed no-results string, otherwise the numbered lines of the
first `max_items` entries are joined; any exception becomes an error
string. -/
def get_news_headlines (max_items : Int) (o : Fetch (List FeedEntry)) : String :=
  match o with
  | .exn e => "뉴스 조회 실패: " ++ strExc e
  | .ok entries =>
    if entries.isEmpty then "뉴스를 가져올 수 없습니다."
    else joinLines (newsItemsFrom 1 (pyTake max_items entries))

/-- The `rank` object of one team of the ranking payload: each field is
`rank_info.get(key)`, `none` modelling a missing key or a JSON null.  `wpct`
is a JSON number (a float, modelled as an exact rational). -/
structure RankInfo where
  rank : Option Int
  win : Option Int
  loss : Option Int
  wpct : Option Rat
  streak : Option String
deriving Repr, DecidableEq

/-- Value of `team.get("rank", {})` when the key is missing. -/
def RankInfo.empty : RankInfo := ⟨none, none, none, none, none⟩

/-- One element of the payload's `list`. -/
structure KboTeam where
  rank : Option RankInfo
  shortName : Option String
deriving Repr, DecidableEq

/-- The ranking payload: `data.get('list', [])`. -/
structure KboData where
  list : Option (List KboTeam)
deriving Repr, DecidableEq

/-- Python `f"{v}"` for an optional integer (`None` renders as `"None"`). -/
def pyStrOfOptInt : Option Int → String
  | none => "None"
  | some n => toString n

/-- Python `f"{v}"` for an optional string (`None` renders as `"None"`). -/
def pyStrOfOptStr : Option String → String
  | none => "None"
  | some s => s

/-- Left-pad a three-digit fraction. -/
def pad3 (n : Nat) : String :=
  if n < 10 then "00" ++ toString n
  else if n < 100 then "0" ++ toString n
  else toString n

/-- Python `f"{q:.3f}"` on a number: round `q` to three decimal places with
ties to even (the rounding of Python's fixed-point float formatting, applied
here to the exact rational value), then print sign, integer part and a
three-digit fraction.  `f` is the floor of `q * 1000` and `twice` the doubled
numerator of its fractional part over `q.den`, so `twice < d` iff that
fractional part is below one half. -/
def fmtFixed3 (q : Rat) : String :=
  let d : Int := (q.den : Int)
  let n : Int := q.num * 1000
  let f : Int := Int.fdiv n d
  let twice : Int := 2 * (n - f * d)
  let m : Int :=
    if twice < d then f
    else if d < twice then f + 1
    else if f % 2 = 0 then f else f + 1
  (if m < 0 then "-" else "") ++ toString (m.natAbs / 1000) ++ "." ++ pad3 (m.natAbs % 1000)

/-- The per-team f-string of `get_kbo_rank`.  The only sub-expression that can
raise is `{rank_info.get('wpct'):.3f}`: the format spec `.3f` applied to
`None` raises `TypeError('unsupported format string passed to
NoneType.__format__')`; every other field interpolates `None` as the text
`"None"`. -/
def fmtTeam (team : KboTeam) : Except PyErr String :=
  let ri := team.rank.getD RankInfo.empty
  let name := team.shortName.getD "팀명 없음"
  match ri.wpct with
  | none => .error (.typeError "unsupported format string passed to NoneType.__format__")
  | some q =>
    .ok (pyStrOfOptInt ri.rank ++ "위: " ++ name ++ " - "
      ++ pyStrOfOptInt ri.win ++ "승 " ++ pyStrOfOptInt ri.loss ++ "패 (승률 "
      ++ fmtFixed3 q ++ ", " ++ pyStrOfOptStr ri.streak ++ ")")

/-- The `for team in teams:` loop: the first raising iteration aborts the
whole loop with its exception. -/
def kboLines : List KboTeam → Except PyErr (List String)
  | [] => .ok []
  | t :: ts =>
    match fmtTeam t with
    | .error e => .error e
    | .ok line =>
      match kboLines ts with
      | .error e => .error e
      | .ok rest => .ok (line :: rest)

/-- The tool `get_kbo_rank()`: fetch the fixed ranking endpoint; an empty (or missing)
team list yields the fixed no-data string; otherwise one line per team after
the header; any exception — of the fetch or of the formatting loop — is
caught by the tool-level handler and becomes the error string. -/
def get_kbo_rank (o : Fetch KboData) : String :=
  match o with
  | .exn e => "KBO 순위 조회 실패: " ++ strExc e
  | .ok data =>
    let teams := data.list.getD []
    if teams.isEmpty then "KBO 순위 데이터를 가져올 수 없습니다."
    else
      match kboLines teams with
      | .error e => "KBO 순위 조회 실패: " ++ strExc e
      | .ok lines => joinLines ("## 📊 2025 KBO 리그 순위\n" :: lines)

/-- The tool `today_schedule()`: the hardcoded event list joined one per line; no
argument, no upstream collaborator, no failure path. -/
def today_schedule : String :=
  joinLines ["09:00 - 데일리 스탠드업 미팅", "10:30 - LangGraph 학습 시간",
    "13:00 - 점심 약속 (강남역)", "15:00 - MCP 프로젝트 개발",
    "18:00 - 운동 (헬스장)", "20:00 - 저녁 식사"]

/-- The tool `daily_quote()`: one LLM invocation with no `try`/`except` — the raw
generated text is returned and any exception of the chain invocation
propagates. -/
def daily_quote (llm : Fetch String) : Except PyErr String :=
  match llm with
  | .ok content => .ok content
  | .exn e => .error e

/-- The fixed instruction string returned by `brief_today()` (the exact
triple-quoted literal of the source). -/
def brief_today : String :=
  "\n## 📋 오늘의 브리핑 생성 가이드\n\n다음 순서대로 도구를 실행하고, 결과를 사용자에게 보기 좋게 정리해서 알려주세요:\n\n### 1단계: 위치 확인\n- 사용자의 위치(도시)를 파악하세요.\n- 위치를 모른다면, 먼저 사용자에게 질문하세요.\n\n### 2단계: 날씨 조회\n- `get_weather(도시명)` 도구를 호출하여 날씨 정보를 가져오세요.\n\n### 3단계: 뉴스 조회\n- `get_news_headlines()` 도구를 사용하여 오늘의 주요 뉴스를 가져오세요.\n\n### 4단계: 야구 순위\n- `get_kbo_rank()` 도구를 사용하여 KBO 리그 순위를 가져오세요.\n\n### 5단계: 일정 확인\n- `today_schedule()` 도구로 오늘의 일정을 확인하세요.\n\n### 6단계: 명언\n- `daily_quote()` 도구로 오늘의 명언을 가져오세요.\n\n### 출력 형식\n결과는 다음과 같이 구성해주세요:\n\n---\n\n# 🌅 [사용자님]을 위한 오늘의 브리핑\n\n## ☀️ 오늘의 날씨\n[get_weather 결과]\n\n## 📰 주요 뉴스\n[get_news_headlines 결과]\n\n## ⚾ KBO 리그 순위\n[get_kbo_rank 결과를 보기 좋게 포맷팅]\n\n## 📅 오늘의 일정\n[today_schedule 결과]\n\n## 💡 오늘의 명언\n[daily_quote 결과]\n\n---\n\n좋은 하루 되세요! 😊\n"

/-- An invocation of one tool of the registry, together with the upstream
outcomes it depends on.  `schedule` and `brief` carry no outcome: those tools
perform no external call. -/
inductive ToolCall where
  | scrape (o : ScrapeOutcome)
  | weather (city : String) (w : WeatherWorld)
  | news (max_items : Int) (o : Fetch (List FeedEntry))
  | kbo (o : Fetch KboData)
  | schedule
  | quote (llm : Fetch String)
  | brief

/-- Execute one tool at the registry boundary: `.ok` is a returned string,
`.error` an exception escaping the tool. -/
def runTool : ToolCall → Except PyErr String
  | .scrape o => .ok (scrape_page_text o)
  | .weather city w => get_weather city w
  | .news m o => .ok (get_news_headlines m o)
  | .kbo o => .ok (get_kbo_rank o)
  | .schedule => .ok today_schedule
  | .quote llm => daily_quote llm
  | .brief => .ok brief_today

/-- Does `pat` occur as a contiguous substring of `s`? -/
def occursIn (pat : List Char) : List Char → Bool
  | [] => pat.isEmpty
  | c :: tail => pat.isPrefixOf (c :: tail) || occursIn pat tail

/-- The remainder of `s` after the first occurrence of `pat`, if any. -/
def tailAfter (pat : List Char) : List Char → Option (List Char)
  | [] => if pat.isEmpty then some [] else none
  | c :: tail =>
    if pat.isPrefixOf (c :: tail) then some (List.drop pat.length (c :: tail))
    else tailAfter pat tail

/-- Do the given strings all occur in `s`, in the given order (each after the
previous occurrence)? -/
def namesInOrder : List String → List Char → Bool
  | [], _ => true
  | p :: ps, s =>
    match tailAfter p.data s with
    | none => false
    | some rest => namesInOrder ps rest

/-- Did this step return a value rather than raise? -/
def raisesNot {α : Type} : Except PyErr α → Bool
  | .ok _ => true
  | .error _ => false

/-- Whether a geocoder outcome makes the body of `get_coordinates` raise. -/
def geoFails : GeoAttempt → Bool
  | .found _ _ => false
  | _ => true

/-! ### Concrete inputs used by witnesses and counterexamples -/

/-- A fetched document whose `body` holds only a whitespace text node. -/
def docWS : List Node := [Node.elem "html" [Node.elem "body" [Node.text [' ']]]]

/-- A fetched document with a script element and visible body text. -/
def docOk : List Node :=
  [Node.elem "html" [Node.elem "body"
    [Node.elem "script" [Node.text ['x']], Node.text ['h', 'i', ' ', ' ', 'u']]]]

/-- A weather world where geocoding succeeds immediately but the forecast
request times out. -/
def wTimeout : WeatherWorld := ⟨fun _ => .found 37 127, .exn .timeoutException⟩

/-- A weather world where the geocoder never finds the city. -/
def wNotFound : WeatherWorld := ⟨fun _ => .notFound, .ok ⟨none⟩⟩

/-- A geocoding dependency that fails twice, then succeeds. -/
def geoThird : Nat → GeoAttempt := fun i => if i = 2 then .found 1 2 else .notFound

/-- Ten feed entries, the first three exercising the placeholder cases. -/
def feedTen : List FeedEntry :=
  [⟨some "속보", some "https://a.example"⟩, ⟨none, some "https://b.example"⟩,
   ⟨some "", none⟩, ⟨some "d", some "dl"⟩, ⟨some "e", some "el"⟩,
   ⟨some "f", some "fl"⟩, ⟨some "g", some "gl"⟩, ⟨some "h", some "hl"⟩,
   ⟨some "i", some "il"⟩, ⟨some "j", some "jl"⟩]

/-- A one-team payload whose rank record has no `wpct`. -/
def teamsNoWpct : List KboTeam :=
  [⟨some ⟨some 1, some 10, some 5, none, some "2승"⟩, some "LG"⟩]

/-! ### Helper lemmas about the whitespace pipeline -/

theorem pyWordsAux_good (s : List Char) :
    ∀ cur, (∀ c ∈ cur, isPySpace c = false) →
      ∀ w ∈ pyWordsAux s cur, w ≠ [] ∧ ∀ c ∈ w, isPySpace c = false := by
  induction s with
  | nil =>
    intro cur hcur w hw
    by_cases hc : cur.isEmpty
    · simp [pyWordsAux, hc] at hw
    · simp [pyWordsAux, hc] at hw
      subst hw
      refine ⟨by simpa [List.isEmpty_iff] using hc, ?_⟩
      intro c hcm
      exact hcur c (List.mem_reverse.mp hcm)
  | cons c cs ih =>
    intro cur hcur w hw
    by_cases hsp : isPySpace c
    · by_cases hc : cur.isEmpty
      · simp [pyWordsAux, hsp, hc] at hw
        exact ih [] (by simp) w hw
      · simp [pyWordsAux, hsp, hc] at hw
        rcases hw with hw | hw
        · subst hw
          refine ⟨by simpa [List.isEmpty_iff] using hc, ?_⟩
          intro d hdm
          exact hcur d (List.mem_reverse.mp hdm)
        · exact ih [] (by simp) w hw
    · simp [pyWordsAux, hsp] at hw
      refine ih (c :: cur) ?_ w hw
      intro d hdm
      rcases List.mem_cons.mp hdm with h | h
      · subst h; simpa using hsp
      · exact hcur d h

theorem pyWords_good (s : List Char) :
    ∀ w ∈ pyWords s, w ≠ [] ∧ ∀ c ∈ w, isPySpace c = false :=
  pyWordsAux_good s [] (by simp)

theorem pyWordsAux_eq_nil_iff (s : List Char) :
    ∀ cur, (pyWordsAux s cur = [] ↔ cur = [] ∧ ∀ c ∈ s, isPySpace c = true) := by
  induction s with
  | nil =>
    intro cur
    by_cases hc : cur.isEmpty
    · simp [pyWordsAux, hc, List.isEmpty_iff.mp hc]
    · simp [pyWordsAux, hc]
      simpa [List.isEmpty_iff] using hc
  | cons c cs ih =>
    intro cur
    by_cases hsp : isPySpace c
    · by_cases hc : cur.isEmpty
      · simp [pyWordsAux, hsp, hc, ih, List.isEmpty_iff.mp hc]
      · simp [pyWordsAux, hsp, hc]
        intro h
        exact absurd h (by simpa [List.isEmpty_iff] using hc)
    · simp [pyWordsAux, hsp, ih, hsp]

theorem pyWords_eq_nil_iff (s : List Char) :
    pyWords s = [] ↔ ∀ c ∈ s, isPySpace c = true := by
  simpa [pyWords] using pyWordsAux_eq_nil_iff s []

theorem noDoubleSpace_append (w s : List Char)
    (hw : ∀ c ∈ w, isPySpace c = false) (hs : noDoubleSpace s = true) :
    noDoubleSpace (w ++ s) = true := by
  induction w with
  | nil => simpa using hs
  | cons a w' ih =>
    have ha : isPySpace a = false := hw a (by simp)
    have ha' : ¬a = ' ' := by
      intro h; subst h; simp [isPySpace] at ha
    have ih' : noDoubleSpace (w' ++ s) = true := by
      refine ih ?_
      intro c hc; exact hw c (by simp [hc])
    cases hws : w' ++ s with
    | nil =>
      show noDoubleSpace (a :: (w' ++ s)) = true
      rw [hws]
      simp [noDoubleSpace]
    | cons b rest =>
      show noDoubleSpace (a :: (w' ++ s)) = true
      rw [hws]
      have : noDoubleSpace (b :: rest) = true := by rw [hws] at ih'; exact ih'
      simp [noDoubleSpace, this, ha']

theorem joinWords_good_head (v : List Char) (ws : List (List Char))
    (hv : v ≠ []) :
    ∃ d rest, joinWords (v :: ws) = d :: rest ∧ d ∈ v := by
  cases v with
  | nil => exact absurd rfl hv
  | cons d v' =>
    cases ws with
    | nil => exact ⟨d, v', by simp [joinWords], by simp⟩
    | cons u us => exact ⟨d, v' ++ ' ' :: joinWords (u :: us), by simp [joinWords], by simp⟩

theorem noDoubleSpace_joinWords (ws : List (List Char))
    (h : ∀ w ∈ ws, w ≠ [] ∧ ∀ c ∈ w, isPySpace c = false) :
    noDoubleSpace (joinWords ws) = true := by
  induction ws with
  | nil => simp [joinWords, noDoubleSpace]
  | cons w ws' ih =>
    cases ws' with
    | nil =>
      show noDoubleSpace (joinWords [w]) = true
      have : joinWords [w] = w ++ [] := by simp [joinWords]
      rw [this]
      exact noDoubleSpace_append w [] (h w (by simp)).2 (by simp [noDoubleSpace])
    | cons v us =>
      show noDoubleSpace (joinWords (w :: v :: us)) = true
      have hrec : noDoubleSpace (joinWords (v :: us)) = true := by
        refine ih ?_
        intro u hu; exact h u (by simp [hu])
      obtain ⟨d, rest, hd, hdv⟩ := joinWords_good_head v us (h v (by simp)).1
      have hdns : isPySpace d = false := (h v (by simp)).2 d hdv
      have hd' : ¬d = ' ' := by
        intro hh; subst hh; simp [isPySpace] at hdns
      have htail : noDoubleSpace (' ' :: joinWords (v :: us)) = true := by
        rw [hd]
        rw [hd] at hrec
        simp [noDoubleSpace, hd', hrec]
      have : joinWords (w :: v :: us) = w ++ ' ' :: joinWords (v :: us) := by
        simp [joinWords]
      rw [this]
      exact noDoubleSpace_append w _ (h w (by simp)).2 htail

theorem mem_joinWords (ws : List (List Char)) (c : Char) (hc : c ∈ joinWords ws) :
    c = ' ' ∨ ∃ w ∈ ws, c ∈ w := by
  induction ws with
  | nil => simp [joinWords] at hc
  | cons w ws' ih =>
    cases ws' with
    | nil =>
      right
      exact ⟨w, by simp, by simpa [joinWords] using hc⟩
    | cons v us =>
      have : joinWords (w :: v :: us) = w ++ ' ' :: joinWords (v :: us) := by
        simp [joinWords]
      rw [this] at hc
      rcases List.mem_append.mp hc with h | h
      · exact Or.inr ⟨w, by simp, h⟩
      · rcases List.mem_cons.mp h with h | h
        · exact Or.inl h
        · rcases ih h with h | ⟨u, hu, hcu⟩
          · exact Or.inl h
          · exact Or.inr ⟨u, by simp [hu], hcu⟩

theorem joinWords_eq_nil_iff (ws : List (List Char))
    (h : ∀ w ∈ ws, w ≠ []) :
    (joinWords ws = [] ↔ ws = []) := by
  cases ws with
  | nil => simp [joinWords]
  | cons w ws' =>
    cases ws' with
    | nil =>
      simp only [joinWords]
      simp [h w (by simp)]
    | cons v us =>
      have : joinWords (w :: v :: us) = w ++ ' ' :: joinWords (v :: us) := by
        simp [joinWords]
      simp [this]

theorem noDoubleSpace_take (n : Nat) (s : List Char) (h : noDoubleSpace s = true) :
    noDoubleSpace (s.take n) = true := by
  induction s generalizing n with
  | nil => simpa using h
  | cons a cs ih =>
    cases n with
    | zero => simp [noDoubleSpace]
    | succ m =>
      cases cs with
      | nil => simpa using h
      | cons b cs' =>
        cases m with
        | zero => simp [noDoubleSpace]
        | succ k =>
          have hsplit : noDoubleSpace (a :: b :: cs') = true := h
          have hpair : (!(a = ' ' && b = ' ')) = true := by
            by_contra hcon
            simp [noDoubleSpace] at hsplit hcon
            simp [hcon.1, hcon.2, noDoubleSpace] at hsplit
          have htl : noDoubleSpace (b :: cs') = true := by
            simp [noDoubleSpace] at hsplit
            simp [noDoubleSpace, hsplit.2]
          have hind := ih (k + 1) htl
          show noDoubleSpace (a :: b :: cs'.take k) = true
          simp only [noDoubleSpace]
          rw [Bool.and_eq_true]
          refine ⟨hpair, ?_⟩
          simpa using hind

/-! ### Helper lemmas about pruning and the scraped text -/

theorem bannedFreeF_append (xs ys : List Node) :
    bannedFreeF (xs ++ ys) = (bannedFreeF xs && bannedFreeF ys) := by
  induction xs with
  | nil => simp [bannedFreeF]
  | cons n ns ih => simp [bannedFreeF, ih, Bool.and_assoc]

mutual
theorem bannedFree_pruneN (n : Node) : bannedFreeF (pruneN n) = true := by
  cases n with
  | text s => simp [pruneN, bannedFreeF, bannedFreeN]
  | elem t cs =>
    by_cases hb : bannedTag t
    · simp [pruneN, hb, bannedFreeF]
    · simp [pruneN, hb, bannedFreeF, bannedFreeN, bannedFree_pruneF cs]
theorem bannedFree_pruneF (l : List Node) : bannedFreeF (pruneF l) = true := by
  cases l with
  | nil => simp [pruneF, bannedFreeF]
  | cons n ns =>
    show bannedFreeF (pruneN n ++ pruneF ns) = true
    rw [bannedFreeF_append, Bool.and_eq_true]
    exact ⟨bannedFree_pruneN n, bannedFree_pruneF ns⟩
end

theorem collapsed_of_good (ws : List (List Char))
    (h : ∀ w ∈ ws, w ≠ [] ∧ ∀ c ∈ w, isPySpace c = false) (n : Nat) :
    isCollapsed ((joinWords ws).take n) = true := by
  unfold isCollapsed
  rw [Bool.and_eq_true]
  constructor
  · rw [List.all_eq_true]
    intro c hc
    have hmem : c ∈ joinWords ws := List.mem_of_mem_take hc
    rcases mem_joinWords ws c hmem with h' | ⟨w, hw, hcw⟩
    · subst h'; simp [isPySpace]
    · simp [(h w hw).2 c hcw]
  · exact noDoubleSpace_take n _ (noDoubleSpace_joinWords ws h)

/-! ### Helper lemmas about the retried geocoding lookup -/

theorem retryGo_unroll (city : String) (geo : Nat → GeoAttempt) (i : Nat) :
    retryGo city geo i 3 =
      match attemptOnce city (geo i) with
      | .ok c => (.ok c, i + 1)
      | .error _ =>
        match attemptOnce city (geo (i + 1)) with
        | .ok c => (.ok c, i + 1 + 1)
        | .error _ =>
          match attemptOnce city (geo (i + 1 + 1)) with
          | .ok c => (.ok c, i + 1 + 1 + 1)
          | .error e => (.error (.retryError e), i + 1 + 1 + 1) := by
  cases hA : attemptOnce city (geo i) with
  | ok c => simp [retryGo, hA]
  | error e =>
    cases hB : attemptOnce city (geo (i + 1)) with
    | ok c => simp [retryGo, hA, hB]
    | error e2 =>
      cases hC : attemptOnce city (geo (i + 1 + 1)) with
      | ok c => simp [retryGo, hA, hB, hC]
      | error e3 => simp [retryGo, hA, hB, hC]

theorem attemptOnce_error_of_fails (city : String) (a : GeoAttempt)
    (h : geoFails a = true) : ∃ e, attemptOnce city a = .error e := by
  cases a with
  | found la lo => simp [geoFails] at h
  | notFound => exact ⟨_, rfl⟩
  | timedOut => exact ⟨_, rfl⟩
  | serviceError => exact ⟨_, rfl⟩

/-! ### The claims -/

/-- Claim C2 (confirmed): for every city whose geocoding lookup finds no
location on any attempt, `get_weather` raises — tenacity's `RetryError`
wrapping the uncaught domain `ValueError` — rather than returning an error
string, and the exception propagates out of the tool boundary; in particular
no stale or default coordinates are substituted. -/
theorem c2_geocode_failure_raises (city : String) (w : WeatherWorld)
    (h : ∀ i, w.geo i = GeoAttempt.notFound) :
    runTool (.weather city w) =
      .error (.retryError (.valueError (coordsNotFoundMsg city))) := by
  have hu := retryGo_unroll city w.geo 0
  norm_num at hu
  rw [h 0, h 1, h 2] at hu
  simp only [attemptOnce] at hu
  show get_weather city w = _
  unfold get_weather get_coordinates
  rw [hu]

/-- Witness for C2 at a concrete world whose geocoder always answers
"not found". -/
theorem c2_witness :
    (∀ i, wNotFound.geo i = GeoAttempt.notFound) ∧
    runTool (.weather "서울" wNotFound) =
      .error (.retryError (.valueError (coordsNotFoundMsg "서울"))) :=
  ⟨fun _ => rfl, c2_geocode_failure_raises "서울" wNotFound (fun _ => rfl)⟩

/-- Claim C5 (confirmed): the coordinate-resolution step makes at most 3
calls to the geocoding dependency; when the first two attempts fail and the
third succeeds, the lookup succeeds having called the dependency exactly 3
times; when every attempt fails, the lookup raises after exactly the 3rd
call. -/
theorem c5_retry_bounds (city : String) (geo : Nat → GeoAttempt) :
    geocodeCalls city geo ≤ 3 ∧
    (∀ la lo, geoFails (geo 0) = true → geoFails (geo 1) = true →
      geo 2 = GeoAttempt.found la lo →
      get_coordinates city geo = .ok (la, lo) ∧ geocodeCalls city geo = 3) ∧
    ((∀ i, i < 3 → geoFails (geo i) = true) →
      (∃ e, get_coordinates city geo = .error (.retryError e)) ∧
      geocodeCalls city geo = 3) := by
  have hu := retryGo_unroll city geo 0
  norm_num at hu
  refine ⟨?_, ?_, ?_⟩
  · unfold geocodeCalls
    rw [hu]
    cases hA : attemptOnce city (geo 0) with
    | ok c => simp
    | error e =>
      cases hB : attemptOnce city (geo 1) with
      | ok c => simp
      | error e2 =>
        cases hC : attemptOnce city (geo 2) with
        | ok c => simp
        | error e3 => simp
  · intro la lo h0 h1 h2
    obtain ⟨e0, he0⟩ := attemptOnce_error_of_fails city (geo 0) h0
    obtain ⟨e1, he1⟩ := attemptOnce_error_of_fails city (geo 1) h1
    have hA2 : attemptOnce city (geo 2) = .ok (la, lo) := by rw [h2]; rfl
    unfold get_coordinates geocodeCalls
    rw [hu, he0, he1, hA2]
    exact ⟨rfl, rfl⟩
  · intro hall
    obtain ⟨e0, he0⟩ := attemptOnce_error_of_fails city (geo 0) (hall 0 (by norm_num))
    obtain ⟨e1, he1⟩ := attemptOnce_error_of_fails city (geo 1) (hall 1 (by norm_num))
    obtain ⟨e2, he2⟩ := attemptOnce_error_of_fails city (geo 2) (hall 2 (by norm_num))
    unfold get_coordinates geocodeCalls
    rw [hu, he0, he1, he2]
    exact ⟨⟨e2, rfl⟩, rfl⟩

/-- Witness for C5 at a dependency that fails twice, then succeeds. -/
theorem c5_witness :
    geoFails (geoThird 0) = true ∧ geoFails (geoThird 1) = true ∧
    geoThird 2 = GeoAttempt.found 1 2 ∧
    get_coordinates "부산" geoThird = .ok (1, 2) ∧
    geocodeCalls "부산" geoThird = 3 := by
  have h := (c5_retry_bounds "부산" geoThird).2.1 1 2 rfl rfl rfl
  exact ⟨rfl, rfl, rfl, h.1, h.2⟩

/-- Counterexample for C1: the claim's sole-exception clause fails.  A
`get_weather` invocation whose coordinate resolution succeeds still raises —
here the uncaught forecast request times out — and `daily_quote` raises on a
failing model invocation. -/
theorem c1_counterexample :
    get_coordinates "서울" wTimeout.geo = .ok (37, 127) ∧
    raisesNot (runTool (.weather "서울" wTimeout)) = false ∧
    raisesNot (runTool (.quote (.exn (.otherExc "boom")))) = false :=
  ⟨rfl, rfl, rfl⟩

/-- Claim C1 (amended): `scrape_page_text`, `get_news_headlines`,
`get_kbo_rank`, `today_schedule` and `brief_today` return a string on every
input and upstream outcome; `get_weather` raises exactly when coordinate
resolution fails or the forecast request fails (so its coordinate-resolution
step is not the sole raising step), and `daily_quote` raises exactly when the
model invocation fails. -/
theorem c1_amended :
    (∀ o, raisesNot (runTool (.scrape o)) = true) ∧
    (∀ m o, raisesNot (runTool (.news m o)) = true) ∧
    (∀ o, raisesNot (runTool (.kbo o)) = true) ∧
    raisesNot (runTool .schedule) = true ∧
    raisesNot (runTool .brief) = true ∧
    (∀ city w, raisesNot (runTool (.weather city w)) = true ↔
      (raisesNot (get_coordinates city w.geo) = true ∧ w.forecast.isOk = true)) ∧
    (∀ llm, raisesNot (runTool (.quote llm)) = true ↔ llm.isOk = true) := by
  refine ⟨fun o => rfl, fun m o => rfl, fun o => rfl, rfl, rfl, ?_, ?_⟩
  · intro city w
    show raisesNot (get_weather city w) = true ↔ _
    unfold get_weather
    cases hg : get_coordinates city w.geo with
    | error e => simp [raisesNot]
    | ok c =>
      cases hf : w.forecast with
      | exn e => simp [raisesNot, Fetch.isOk]
      | ok js => simp [raisesNot, Fetch.isOk]
  · intro llm
    cases llm with
    | ok s => simp [runTool, daily_quote, raisesNot, Fetch.isOk]
    | exn e => simp [runTool, daily_quote, raisesNot, Fetch.isOk]

/-- Witness instantiating C1's amended statement at concrete outcomes. -/
theorem c1_amended_witness :
    raisesNot (runTool (.scrape .timeout)) = true ∧
    raisesNot (runTool (.news 3 (.exn .timeoutException))) = true ∧
    raisesNot (runTool (.kbo (.exn .timeoutException))) = true :=
  ⟨c1_amended.1 .timeout, c1_amended.2.1 3 (.exn .timeoutException),
    c1_amended.2.2.1 (.exn .timeoutException)⟩

/-- Counterexample for C4: `scrape_page_text` — one of the six other tools of
the registry — does not occur anywhere in the string returned by
`brief_today()`, so that string does not reference all six other tool
names. -/
theorem c4_counterexample :
    occursIn ("scrape_page_text".data) (brief_today.data) = false := by decide

/-- Claim C4 (amended): `brief_today()` executes no tool and performs no HTTP
call — in the registry it is the outcome-free invocation returning one fixed
string — and that string references, in order, the names of five of the other
six tools (`get_weather`, `get_news_headlines`, `get_kbo_rank`,
`today_schedule`, `daily_quote`); the sixth, `scrape_page_text`, is never
mentioned. -/
theorem c4_amended :
    runTool .brief = .ok brief_today ∧
    namesInOrder ["get_weather", "get_news_headlines", "get_kbo_rank",
      "today_schedule", "daily_quote"] (brief_today.data) = true ∧
    occursIn ("scrape_page_text".data) (brief_today.data) = false :=
  ⟨rfl, by decide, by decide⟩

/-- Unfolding one iteration of the headline loop in terms of the effective
(placeholder-substituted) title and link. -/
theorem newsItemsFrom_cons (i : Nat) (e : FeedEntry) (es : List FeedEntry) :
    newsItemsFrom i (e :: es) =
      (toString i ++ ". [" ++ effTitle e ++ "](" ++ effLink e ++ ")") ::
        newsItemsFrom (i + 1) es := by
  rcases e with ⟨t, l⟩
  cases t <;> cases l <;> simp [newsItemsFrom, effTitle, effLink]

/-- Claim C6 (confirmed): on a feed of 10 entries, `get_news_headlines(3)`
returns exactly the three numbered markdown lines built from the first three
entries, joined by newlines, with the placeholders substituted for a missing
or empty title/link; a feed with no entries yields the fixed no-results
string. -/
theorem c6_news_three_lines (a b c : FeedEntry) (rest : List FeedEntry)
    (h : rest.length = 7) :
    get_news_headlines 3 (.ok (a :: b :: c :: rest)) =
      ("1. [" ++ effTitle a ++ "](" ++ effLink a ++ ")") ++ "\n" ++
        (("2. [" ++ effTitle b ++ "](" ++ effLink b ++ ")") ++ "\n" ++
          ("3. [" ++ effTitle c ++ "](" ++ effLink c ++ ")")) ∧
    get_news_headlines 3 (.ok []) = "뉴스를 가져올 수 없습니다." := by
  constructor
  · have hp : pyTake 3 (a :: b :: c :: rest) = [a, b, c] := rfl
    rw [show get_news_headlines 3 (.ok (a :: b :: c :: rest)) =
      joinLines (newsItemsFrom 1 (pyTake 3 (a :: b :: c :: rest))) from rfl]
    rw [hp, newsItemsFrom_cons, newsItemsFrom_cons, newsItemsFrom_cons]
    show (toString 1 ++ ". [" ++ effTitle a ++ "](" ++ effLink a ++ ")") ++ "\n" ++
      ((toString 2 ++ ". [" ++ effTitle b ++ "](" ++ effLink b ++ ")") ++ "\n" ++
        (toString 3 ++ ". [" ++ effTitle c ++ "](" ++ effLink c ++ ")")) = _
    rfl
  · rfl

/-- Witness for C6 on a concrete ten-entry feed exercising both placeholder
substitutions. -/
theorem c6_witness :
    (List.drop 3 feedTen).length = 7 ∧
    get_news_headlines 3 (.ok feedTen) =
      "1. [속보](https://a.example)\n2. [제목 없음](https://b.example)\n3. [제목 없음](#)" := by
  have h := (c6_news_three_lines ⟨some "속보", some "https://a.example"⟩
    ⟨none, some "https://b.example"⟩ ⟨some "", none⟩
    [⟨some "d", some "dl"⟩, ⟨some "e", some "el"⟩, ⟨some "f", some "fl"⟩,
     ⟨some "g", some "gl"⟩, ⟨some "h", some "hl"⟩, ⟨some "i", some "il"⟩,
     ⟨some "j", some "jl"⟩] rfl).1
  exact ⟨rfl, h.trans (by decide)⟩

/-- Claim C7 (confirmed): on a payload whose team list is empty or missing,
`get_kbo_rank()` returns the fixed no-data string — which is not the empty
string — and, like every path of this tool, it returns rather than raises. -/
theorem c7_kbo_empty :
    get_kbo_rank (.ok ⟨some []⟩) = "KBO 순위 데이터를 가져올 수 없습니다." ∧
    get_kbo_rank (.ok ⟨none⟩) = "KBO 순위 데이터를 가져올 수 없습니다." ∧
    ("KBO 순위 데이터를 가져올 수 없습니다." : String) ≠ "" ∧
    ∀ o, raisesNot (runTool (.kbo o)) = true :=
  ⟨rfl, rfl, by decide, fun _ => rfl⟩

/-- Witness instantiating C7's universally quantified no-raise clause. -/
theorem c7_witness : raisesNot (runTool (.kbo (.ok ⟨some []⟩))) = true :=
  c7_kbo_empty.2.2.2 (.ok ⟨some []⟩)

/-- Claim C8 (confirmed): `today_schedule()` takes no upstream outcome — the
invocation has no external call and no failure mode — and always returns this
one fixed string, so any two calls are byte-identical. -/
theorem c8_schedule_fixed :
    runTool .schedule =
      .ok "09:00 - 데일리 스탠드업 미팅\n10:30 - LangGraph 학습 시간\n13:00 - 점심 약속 (강남역)\n15:00 - MCP 프로젝트 개발\n18:00 - 운동 (헬스장)\n20:00 - 저녁 식사" :=
  rfl

/-- If some team's rank record lacks `wpct`, the formatting loop raises the
`TypeError` of `NoneType.__format__` — at the first such team, and that same
exception regardless of which team it was. -/
theorem kboLines_wpct_none (teams : List KboTeam)
    (h : ∃ t ∈ teams, (t.rank.getD RankInfo.empty).wpct = none) :
    kboLines teams =
      .error (.typeError "unsupported format string passed to NoneType.__format__") := by
  induction teams with
  | nil => simp at h
  | cons t ts ih =>
    rcases h with ⟨u, hu, hwp⟩
    rcases List.mem_cons.mp hu with hh | hh
    · subst hh
      simp [kboLines, fmtTeam, hwp]
    · cases hwt : (t.rank.getD RankInfo.empty).wpct with
      | none => simp [kboLines, fmtTeam, hwt]
      | some q =>
        have hrec := ih ⟨u, hh, hwp⟩
        simp [kboLines, fmtTeam, hwt, hrec]

/-- Claim C9 (confirmed): when the team list is non-empty but some team's
rank record has no `wpct`, the whole `get_kbo_rank()` call returns the single
catch-all error string — failure prefix plus the `TypeError` text — and not a
partial table. -/
theorem c9_wpct_none_errors (teams : List KboTeam)
    (h : ∃ t ∈ teams, (t.rank.getD RankInfo.empty).wpct = none) :
    get_kbo_rank (.ok ⟨some teams⟩) =
      "KBO 순위 조회 실패: unsupported format string passed to NoneType.__format__" := by
  have hne : teams ≠ [] := by
    rcases h with ⟨t, ht, _⟩
    exact List.ne_nil_of_mem ht
  have hE : teams.isEmpty = false := by simpa [List.isEmpty_iff] using hne
  have hk := kboLines_wpct_none teams h
  simp [get_kbo_rank, hE, hk, strExc]

/-- Witness for C9 at a one-team payload without `wpct`. -/
theorem c9_witness :
    (∃ t ∈ teamsNoWpct, (t.rank.getD RankInfo.empty).wpct = none) ∧
    get_kbo_rank (.ok ⟨some teamsNoWpct⟩) =
      "KBO 순위 조회 실패: unsupported format string passed to NoneType.__format__" :=
  ⟨by decide, c9_wpct_none_errors teamsNoWpct (by decide)⟩

/-- Claim C10 (confirmed): on a feed with at least one entry,
`get_news_headlines(0)` returns the empty string — not the no-results message,
which is reserved for an empty feed — and a negative `max_items` likewise
shrinks the result through Python slicing, down to empty at `-len`. -/
theorem c10_zero_max_items (es : List FeedEntry) (h : es ≠ []) :
    get_news_headlines 0 (.ok es) = "" ∧
    get_news_headlines (-(es.length : Int)) (.ok es) = "" ∧
    ("" : String) ≠ "뉴스를 가져올 수 없습니다." := by
  have hne : es.isEmpty = false := by simpa [List.isEmpty_iff] using h
  refine ⟨?_, ?_, by decide⟩
  · simp [get_news_headlines, hne, pyTake, newsItemsFrom, joinLines]
  · have hlen : 0 < es.length := List.length_pos.mpr h
    have hneg : ¬(0 : Int) ≤ -(es.length : Int) := by
      simp only [neg_nonneg, not_le]
      exact_mod_cast hlen
    simp [get_news_headlines, hne, pyTake, hneg, newsItemsFrom, joinLines]

/-- Witness for C10 at a concrete one-entry feed. -/
theorem c10_witness :
    get_news_headlines 0 (.ok [⟨some "t", some "l"⟩]) = "" ∧
    get_news_headlines (-1) (.ok [⟨some "t", some "l"⟩]) = "" := by
  have h := c10_zero_max_items [⟨some "t", some "l"⟩] (by decide)
  exact ⟨h.1, by simpa using h.2.1⟩

/-- Counterexample for C3: a successfully fetched document whose body element
exists (holding one whitespace text node) — yet the tool returns the empty
string, refuting the claimed non-emptiness. -/
theorem c3_counterexample :
    findBodyF (pruneF docWS) = some (Node.elem "body" [Node.text [' ']]) ∧
    scrape_page_text (.ok docWS) = "" :=
  ⟨rfl, rfl⟩

/-- Claim C3 (amended): for every fetch that succeeds with a `body` element
in the decomposed document, the returned text has length at most 5000, all
its whitespace is collapsed to single spaces, it is empty exactly when the
body's text is all-whitespace (so non-empty whenever any visible character
remains, but not in general), the decomposed document retains no
`script`/`style`/`nav`/`footer`/`header` element, and the result depends only
on the document after those subtrees are removed. -/
theorem c3_amended (doc : List Node) (b : Node)
    (hb : findBodyF (pruneF doc) = some b) :
    (scrape_page_text (.ok doc)).length ≤ 5000 ∧
    isCollapsed (scrape_page_text (.ok doc)).data = true ∧
    ((scrape_page_text (.ok doc)).data = [] ↔
      ∀ c ∈ getTextStrip b, isPySpace c = true) ∧
    bannedFreeF (pruneF doc) = true ∧
    (∀ d2, pruneF d2 = pruneF doc →
      scrape_page_text (.ok d2) = scrape_page_text (.ok doc)) := by
  have hout : scrape_page_text (.ok doc) =
      String.mk ((joinWords (pyWords (getTextStrip b))).take 5000) := by
    simp [scrape_page_text, hb]
  have hgood := pyWords_good (getTextStrip b)
  refine ⟨?_, ?_, ?_, bannedFree_pruneF doc, ?_⟩
  · rw [hout]
    show (List.take 5000 (joinWords (pyWords (getTextStrip b)))).length ≤ 5000
    exact List.length_take_le 5000 _
  · rw [hout]
    exact collapsed_of_good _ hgood 5000
  · rw [hout]
    show List.take 5000 (joinWords (pyWords (getTextStrip b))) = [] ↔ _
    constructor
    · intro hnil
      rcases List.take_eq_nil_iff.mp hnil with h | h
      · exact absurd h (by norm_num)
      · have hjw : pyWords (getTextStrip b) = [] :=
          (joinWords_eq_nil_iff _ (fun w hw => (hgood w hw).1)).mp h
        exact (pyWords_eq_nil_iff _).mp hjw
    · intro hsp
      have hjw : pyWords (getTextStrip b) = [] := (pyWords_eq_nil_iff _).mpr hsp
      rw [hjw]
      rfl
  · intro d2 hd2
    simp [scrape_page_text, hd2]

/-- Witness for C3 at a concrete document with a script element and visible
body text. -/
theorem c3_witness :
    findBodyF (pruneF docOk) =
      some (Node.elem "body" [Node.text ['h', 'i', ' ', ' ', 'u']]) ∧
    (scrape_page_text (.ok docOk)).length ≤ 5000 ∧
    isCollapsed (scrape_page_text (.ok docOk)).data = true := by
  have h := c3_amended docOk
    (Node.elem "body" [Node.text ['h', 'i', ' ', ' ', 'u']]) rfl
  exact ⟨rfl, h.1, h.2.1⟩

end MCP
